import Mathlib

/-!
Shallow embedding of the vector-vogue frontend (src/frontend/src/App.jsx and
the unnamed React file src/unnamed/part_000).  JavaScript values that the
product-display and filter code manipulates are modelled by `JVal`; numbers
are rationals (no floating point is exercised by the claims), objects that the
code probes are modelled by explicit structures, and optional chaining
(`a?.b`) is modelled by `Option`.  JS truthiness and the short-circuiting
`||` operator are modelled by `truthy` and `jor`.
-/

namespace VectorVogue

/-- A JavaScript value as used by the frontend code: `undefined`, `null`,
a number, a string, or a boolean. -/
inductive JVal where
  | undefined
  | null
  | num (q : ℚ)
  | str (s : String)
  | jbool (b : Bool)
deriving DecidableEq

/-- JS truthiness: `undefined`, `null`, `0`, `""` and `false` are falsy. -/
def truthy : JVal → Bool
  | .undefined => false
  | .null => false
  | .num q => decide (q ≠ 0)
  | .str s => decide (s ≠ "")
  | .jbool b => b

/-- JS `a || b`: returns `a` when `a` is truthy, else `b`. -/
def jor (a b : JVal) : JVal := if truthy a then a else b

/-- Truthiness of a plain JS string (the filter fields are strings). -/
def truthyStr (s : String) : Bool := decide (s ≠ "")

/-- JS `String.prototype.trim`: strip leading and trailing whitespace
(structurally recursive, so that concrete inputs evaluate inside the
kernel). -/
def jsTrim (s : String) : String :=
  ⟨((s.data.dropWhile Char.isWhitespace).reverse.dropWhile Char.isWhitespace).reverse⟩

/-- JS `String.prototype.startsWith` (structurally recursive). -/
def jsStartsWith (s p : String) : Bool := p.data.isPrefixOf s.data

/-- Numeric value of a digit list (most significant first). -/
def natOfDigits (ds : List Char) : ℕ :=
  ds.foldl (fun a c => 10 * a + (c.toNat - 48)) 0

/-- Parse an unsigned decimal numeral prefix `digits [. digits]`;
`none` models NaN (no digit consumed at all). -/
def parseDec (cs : List Char) : Option ℚ :=
  let ip := cs.takeWhile Char.isDigit
  let rest := cs.dropWhile Char.isDigit
  match rest with
  | '.' :: r =>
      let fp := r.takeWhile Char.isDigit
      if ip.isEmpty && fp.isEmpty then none
      else some ((natOfDigits ip : ℚ) + (natOfDigits fp : ℚ) / (10 : ℚ) ^ fp.length)
  | _ => if ip.isEmpty then none else some (natOfDigits ip)

/-- Characters remaining after the numeral prefix consumed by `parseDec`. -/
def decTail (cs : List Char) : List Char :=
  let rest := cs.dropWhile Char.isDigit
  match rest with
  | '.' :: r => r.dropWhile Char.isDigit
  | _ => rest

/-- Parse an optionally signed decimal numeral prefix. -/
def parseSigned (cs : List Char) : Option ℚ :=
  match cs with
  | '-' :: r => (parseDec r).map (fun q => -q)
  | '+' :: r => parseDec r
  | _ => parseDec cs

/-- Characters remaining after the signed numeral prefix. -/
def signedTail (cs : List Char) : List Char :=
  match cs with
  | '-' :: r => decTail r
  | '+' :: r => decTail r
  | _ => decTail cs

/-- JS `parseFloat` (restricted to plain decimal numerals, which is all the
filter inputs can produce): skip whitespace, parse the longest signed decimal
prefix, NaN (`none`) when no digits. -/
def parseFloatJS (s : String) : Option ℚ := parseSigned (jsTrim s).data

/-- JS `Number()` coercion of a string (as used by relational comparison):
empty/whitespace string is `0`, otherwise the whole trimmed string must be a
signed decimal numeral, else NaN (`none`). -/
def strToNumberJS (s : String) : Option ℚ :=
  let t := jsTrim s
  if t.isEmpty then some 0
  else
    match parseSigned t.data, signedTail t.data with
    | some v, [] => some v
    | _, _ => none

/-- JS `ToNumber` of a value; `none` models NaN. -/
def toNumberJS : JVal → Option ℚ
  | .undefined => none
  | .null => some 0
  | .num q => some q
  | .str s => strToNumberJS s
  | .jbool b => some (if b then 1 else 0)

/-- JS relational `x < m` where `m` is the (possibly NaN) result of
`parseFloat`: any comparison involving NaN is `false`. -/
def jlt (x : JVal) (m : Option ℚ) : Bool :=
  match toNumberJS x, m with
  | some a, some b => decide (a < b)
  | _, _ => false

/-- JS relational `x > m`, NaN comparisons being `false`. -/
def jgt (x : JVal) (m : Option ℚ) : Bool :=
  match toNumberJS x, m with
  | some a, some b => decide (b < a)
  | _, _ => false

/-- One entry of a raw record's `images` array: a set of resolution
variants. -/
structure ImageEntry where
  hi_res : JVal
  large : JVal
  thumb : JVal
deriving DecidableEq

/-- The raw provider record attached to a product, with the fields the
frontend probes. -/
structure RawRecord where
  name : JVal
  title : JVal
  price : JVal
  sale_price : JVal
  list_price : JVal
  average_rating : JVal
  rating : JVal
  review_score : JVal
  brand : JVal
  image : JVal
  main_image : JVal
  images : Option (List ImageEntry)
deriving DecidableEq

/-- A product object as delivered in the response's `results` array. -/
structure Product where
  name : JVal
  title : JVal
  price : JVal
  rating : JVal
  brand : JVal
  image : JVal
  explanation : JVal
  score : JVal
  raw : Option RawRecord
deriving DecidableEq

/-- Optional chaining `product.raw?.f`: `undefined` when `raw` is absent. -/
def rawField (p : Product) (f : RawRecord → JVal) : JVal :=
  match p.raw with
  | none => .undefined
  | some r => f r

/-- `product.raw?.images?.[0]`: the first image entry, when it exists. -/
def imagesFirst (p : Product) : Option ImageEntry :=
  match p.raw with
  | none => none
  | some r =>
      match r.images with
      | none => none
      | some [] => none
      | some (e :: _) => some e

/-- `product.raw?.images?.[0]?.hi_res`. -/
def hiResFirst (p : Product) : JVal :=
  match imagesFirst p with
  | none => .undefined
  | some e => e.hi_res

/-- App.jsx `getProductImage` (lines 75-85). -/
def getProductImage (p : Product) : JVal :=
  jor (hiResFirst p)
    (jor p.image
      (jor (rawField p RawRecord.image)
        (jor (rawField p RawRecord.main_image) (.str "/placeholder-image.jpg"))))

/-- The record returned by App.jsx `getProductData`. -/
structure ProductData where
  name : JVal
  price : JVal
  rating : JVal
  brand : JVal
  image : JVal
  explanation : JVal
deriving DecidableEq

/-- App.jsx `getProductData` (lines 87-96). -/
def getProductData (p : Product) : ProductData :=
  { name := jor p.name (jor p.title (jor (rawField p RawRecord.name)
      (jor (rawField p RawRecord.title) (.str "Product Name"))))
  , price := jor p.price (jor (rawField p RawRecord.price)
      (jor (rawField p RawRecord.sale_price)
        (jor (rawField p RawRecord.list_price) (.num 0))))
  , rating := jor p.rating (jor (rawField p RawRecord.average_rating)
      (jor (rawField p RawRecord.rating)
        (jor (rawField p RawRecord.review_score) (.num 0))))
  , brand := jor p.brand (jor (rawField p RawRecord.brand) (.str ""))
  , image := getProductImage p
  , explanation := jor p.explanation (.str "") }

/-- The gender filter's possible values (the App.jsx select offers exactly
these four options, lines 732-735). -/
inductive Gender where
  | all
  | men
  | women
  | unisex
deriving DecidableEq

/-- The string value carried by the gender select. -/
def Gender.toStr : Gender → String
  | .all => "all"
  | .men => "men"
  | .women => "women"
  | .unisex => "unisex"

/-- The App.jsx `filters` state object (line 27). -/
structure Filters where
  gender : Gender
  minPrice : String
  maxPrice : String
  minRating : String
  sortBy : String
deriving DecidableEq

/-- `product.price || product.raw?.price` (App.jsx line 142). -/
def effPrice (p : Product) : JVal := jor p.price (rawField p RawRecord.price)

/-- `product.rating || product.raw?.average_rating` (App.jsx line 143). -/
def effRating (p : Product) : JVal := jor p.rating (rawField p RawRecord.average_rating)

/-- App.jsx line 144: drop when min-price filter is set and `price < min`. -/
def dropMin (f : Filters) (p : Product) : Bool :=
  truthyStr f.minPrice && jlt (effPrice p) (parseFloatJS f.minPrice)

/-- App.jsx line 145: drop when max-price filter is set and `price > max`. -/
def dropMax (f : Filters) (p : Product) : Bool :=
  truthyStr f.maxPrice && jgt (effPrice p) (parseFloatJS f.maxPrice)

/-- App.jsx line 146: drop when min-rating filter is set and `rating < min`. -/
def dropRating (f : Filters) (p : Product) : Bool :=
  truthyStr f.minRating && jlt (effRating p) (parseFloatJS f.minRating)

/-- The predicate of the `filter` callback in App.jsx lines 141-148. -/
def keepProduct (f : Filters) (p : Product) : Bool :=
  !dropMin f p && !dropMax f p && !dropRating f p

/-- App.jsx line 140: the client-side filter runs only when one of the three
numeric filters is a truthy string. -/
def filtersActive (f : Filters) : Bool :=
  truthyStr f.minPrice || truthyStr f.maxPrice || truthyStr f.minRating

/-- App.jsx lines 140-149: the client-side filtering step. -/
def clientFilter (f : Filters) (rs : List Product) : List Product :=
  if filtersActive f then rs.filter (keepProduct f) else rs

/-- App.jsx line 157: prepend the query, drop older duplicates of it, keep at
most 10 entries. -/
def updateHistory (query : String) (hist : List String) : List String :=
  (query :: hist.filter (fun h => h != query)).take 10

/-- A browser `File` as far as the frontend inspects it: MIME type, byte
size, and the base64 data URL `toBase64` would produce for it. -/
structure JsFile where
  type : String
  size : ℕ
  base64 : String
deriving DecidableEq

/-- The App.jsx component state touched by the claims.  `localHistory` is the
value stored under the localStorage key `searchHistory` (decoded; `none` when
the key is absent). -/
structure AppState where
  query : String
  results : List Product
  loading : Bool
  useRerank : Bool
  searchHistory : List String
  localHistory : Option (List String)
  imageFile : Option JsFile
  imagePreview : Option JsFile
  filters : Filters
deriving DecidableEq

/-- Outcome of the `fetch` in `handleSearch`: an `ok` response whose JSON body
may or may not carry a `results` array, an HTTP error status (caught by the
`response.ok` check), or a network/parse failure with its message. -/
inductive ServerResponse where
  | ok (results? : Option (List Product))
  | httpError (status : ℕ)
  | netError (msg : String)
deriving DecidableEq

/-- What one `handleSearch` invocation does: the request body it posts (as an
ordered key/value object, `none` when no request is sent), the component
state after the invocation, and the `alert` text shown on failure. -/
structure SearchOutcome where
  request : Option (List (String × JVal))
  state : AppState
  alerted : Option String
deriving DecidableEq

/-- App.jsx lines 105-120: the request body.  The gender field is added only
when `filters.gender` is truthy and differs from `"all"`; the three numeric
filters are never written into the payload. -/
def buildPayload (query : String) (imageFile : Option JsFile) (useRerank : Bool)
    (f : Filters) : List (String × JVal) :=
  let base : List (String × JVal) :=
    [("q", jor (.str (jsTrim query)) (.str ""))
    , ("image_base64", match imageFile with
        | none => JVal.null
        | some file => .str file.base64)
    , ("top_k", JVal.num 12)
    , ("rerank", JVal.jbool useRerank)]
  if truthy (.str f.gender.toStr) && f.gender.toStr != "all"
  then base ++ [("gender_filter", .str f.gender.toStr)]
  else base

/-- App.jsx `handleSearch` (lines 98-167), as a state transition given the
server's behaviour for the posted request.  The `finally` clause makes
`loading` end up `false` on every path that starts a request. -/
def handleSearch (s : AppState) (resp : ServerResponse) : SearchOutcome :=
  if (jsTrim s.query) == "" && s.imageFile == none then ⟨none, s, none⟩
  else
    let payload := buildPayload s.query s.imageFile s.useRerank s.filters
    match resp with
    | .ok results? =>
        let filtered := clientFilter s.filters (results?.getD [])
        let hist := if (jsTrim s.query) != "" then updateHistory s.query s.searchHistory
                    else s.searchHistory
        let stored := if (jsTrim s.query) != "" then some hist else s.localHistory
        ⟨some payload,
         { s with results := filtered, searchHistory := hist,
                  localHistory := stored, loading := false },
         none⟩
    | .httpError status =>
        ⟨some payload, { s with loading := false },
         some ("Search failed: API error: " ++ toString status)⟩
    | .netError msg =>
        ⟨some payload, { s with loading := false },
         some ("Search failed: " ++ msg)⟩

/-- App.jsx `clearHistory` (lines 169-172). -/
def clearHistory (s : AppState) : AppState :=
  { s with searchHistory := [], localHistory := none }

/-- App.jsx image-input `onChange` handler (lines 541-567), given the selected
file (`none` when the file list is empty): returns the new state and the
`alert` text, rejecting non-image MIME types and files over 5MB before any
state is touched. -/
def handleImageChange (file? : Option JsFile) (s : AppState) : AppState × Option String :=
  match file? with
  | none => (s, none)
  | some f =>
      if !(jsStartsWith f.type "image/") then
        (s, some "Please select an image file (JPEG, PNG, etc.)")
      else if 5 * 1024 * 1024 < f.size then
        (s, some "Image size should be less than 5MB")
      else
        ({ s with imageFile := some f, imagePreview := some f, query := "" }, none)

/-- A file the handler accepts: image MIME type and at most 5MB. -/
def validImageFile (f : JsFile) : Bool :=
  jsStartsWith f.type "image/" && f.size ≤ 5 * 1024 * 1024

/-- part_000 `getImageUrl` (lines 542-546): `null` without a first image
entry, else `hi_res || large || thumb` of that entry. -/
def getImageUrl (p : Product) : JVal :=
  match imagesFirst p with
  | none => .null
  | some e => jor e.hi_res (jor e.large e.thumb)

/-- part_000 line 567: the image block renders only when `imageUrl` is
truthy. -/
def cardShowsImage (p : Product) : Bool := truthy (getImageUrl p)

/-- part_000 line 647: the price badge renders only when
`product.price || product.raw?.price` is truthy (`effPrice` is that same
expression). -/
def showsPriceBadge (p : Product) : Bool := truthy (effPrice p)

/-- part_000 line 660: the rating badge renders only when
`product.rating || product.raw?.average_rating` is truthy. -/
def showsRatingBadge (p : Product) : Bool := truthy (effRating p)

/-- The state of the part_000 component that `submit` touches. -/
structure MiniState where
  q : String
  results : List Product
  loading : Bool
  rerank : Bool
  isMobile : Bool
deriving DecidableEq

/-- Outcome of the part_000 `fetch`: a parsed JSON body whose `results` field
may be missing, or a rejected fetch / JSON parse failure (part_000 does not
check `res.ok`). -/
inductive FetchOutcome where
  | json (results? : Option (List Product))
  | failure (msg : String)
deriving DecidableEq

/-- What one part_000 `submit` invocation does. -/
structure MiniOutcome where
  request : Option (List (String × JVal))
  state : MiniState
  alerted : Option String
deriving DecidableEq

/-- part_000 `submit` (lines 32-59). -/
def submit (s : MiniState) (resp : FetchOutcome) : MiniOutcome :=
  if (jsTrim s.q) == "" then ⟨none, s, none⟩
  else
    let payload : List (String × JVal) :=
      [("q", JVal.str s.q)
      , ("top_k", JVal.num (if s.isMobile then 8 else 12))
      , ("rerank", JVal.jbool s.rerank)]
    match resp with
    | .json results? =>
        ⟨some payload, { s with results := results?.getD [], loading := false }, none⟩
    | .failure msg =>
        ⟨some payload, { s with loading := false }, some ("Error: " ++ msg)⟩

/-! Spec-side definitions.  These follow the wording of the claims/spec
("first present, well-typed value wins", "when those are absent, the raw
record's price/average_rating") and are compared against the code-side
definitions above. -/

/-- A JSON field is present when it is not `undefined` (the notion of
presence used by the claims, as opposed to JS truthiness). -/
def presentVal (v : JVal) : Bool := v != .undefined

/-- First present value in priority order, else the default. -/
def firstPresent (vs : List JVal) (d : JVal) : JVal := (vs.find? presentVal).getD d

/-- First truthy value in priority order, else the default (what the `||`
chains of the code actually compute). -/
def firstTruthy (vs : List JVal) (d : JVal) : JVal := (vs.find? truthy).getD d

/-- Claim C1's price: the product's `price`, or the raw record's `price` when
the former is absent. -/
def specPrice (p : Product) : JVal :=
  if presentVal p.price then p.price else rawField p RawRecord.price

/-- Claim C1's rating: the product's `rating`, or the raw record's
`average_rating` when the former is absent. -/
def specRating (p : Product) : JVal :=
  if presentVal p.rating then p.rating else rawField p RawRecord.average_rating

/-- JS-style `x ≥ m` used to express the claim's filter predicates. -/
def jge (x : JVal) (m : Option ℚ) : Bool :=
  match toNumberJS x, m with
  | some a, some b => decide (b ≤ a)
  | _, _ => false

/-- JS-style `x ≤ m` used to express the claim's filter predicates. -/
def jle (x : JVal) (m : Option ℚ) : Bool :=
  match toNumberJS x, m with
  | some a, some b => decide (a ≤ b)
  | _, _ => false

/-- Claim C1 as stated: each set filter predicate holds of the claim's
price/rating. -/
def specFilterOK (f : Filters) (p : Product) : Bool :=
  (!truthyStr f.minPrice || jge (specPrice p) (parseFloatJS f.minPrice)) &&
  (!truthyStr f.maxPrice || jle (specPrice p) (parseFloatJS f.maxPrice)) &&
  (!truthyStr f.minRating || jge (specRating p) (parseFloatJS f.minRating))

/-- Claim C6's price: first present value of the stated chain, else `0`. -/
def specC6Price (p : Product) : JVal :=
  firstPresent [p.price, rawField p RawRecord.price,
    rawField p RawRecord.sale_price, rawField p RawRecord.list_price] (.num 0)

/-- Claim C7's display image: the first present resolution variant of the
first image entry, in the order hi_res, large, thumb. -/
def specDisplayVariant (p : Product) : Option JVal :=
  (imagesFirst p).bind (fun e => [e.hi_res, e.large, e.thumb].find? presentVal)

/-- Score comparison for the ordering invariant: `a`'s score is at least
`b`'s whenever both are numeric. -/
def scoreGeB (a b : Product) : Bool :=
  match toNumberJS a.score, toNumberJS b.score with
  | some x, some y => decide (y ≤ x)
  | _, _ => true

/-! Concrete sample values used by witnesses and counterexamples. -/

/-- A raw record with every field absent. -/
def emptyRaw : RawRecord :=
  { name := .undefined, title := .undefined, price := .undefined, sale_price := .undefined
  , list_price := .undefined, average_rating := .undefined, rating := .undefined
  , review_score := .undefined, brand := .undefined, image := .undefined
  , main_image := .undefined, images := none }

/-- A product with every field absent. -/
def emptyProduct : Product :=
  { name := .undefined, title := .undefined, price := .undefined, rating := .undefined
  , brand := .undefined, image := .undefined, explanation := .undefined, score := .undefined
  , raw := none }

/-- The initial App.jsx `filters` state (lines 27-33). -/
def defaultFilters : Filters :=
  { gender := .all, minPrice := "", maxPrice := "", minRating := ""
  , sortBy := "relevance" }

/-- The initial App.jsx component state. -/
def initialState : AppState :=
  { query := "", results := [], loading := false, useRerank := true
  , searchHistory := [], localHistory := none, imageFile := none
  , imagePreview := none, filters := defaultFilters }

/-! Helper lemmas. -/

/-- A four-step `||` chain computes the first truthy value, else the
default. -/
theorem jor_eq_firstTruthy4 (a b c d e : JVal) :
    jor a (jor b (jor c (jor d e))) = firstTruthy [a, b, c, d] e := by
  unfold jor firstTruthy
  cases ha : truthy a <;> cases hb : truthy b <;> cases hc : truthy c <;>
    cases hd : truthy d <;> simp [List.find?, ha, hb, hc, hd]

/-- A three-value `||` chain computes the first truthy value, else the last
one. -/
theorem jor_eq_firstTruthy3 (a b c : JVal) :
    jor a (jor b c) = firstTruthy [a, b, c] c := by
  unfold jor firstTruthy
  cases ha : truthy a <;> cases hb : truthy b <;> cases hc : truthy c <;>
    simp [List.find?, ha, hb, hc]

/-- Anything the client-side filter lets through satisfies the filter
callback (vacuously when no numeric filter is active). -/
theorem keep_of_mem_clientFilter {f : Filters} {rs : List Product} {p : Product}
    (hp : p ∈ clientFilter f rs) : keepProduct f p = true := by
  unfold clientFilter at hp
  by_cases hA : filtersActive f = true
  · rw [if_pos hA] at hp
    exact (List.mem_filter.mp hp).2
  · have hA' : filtersActive f = false := by simpa using hA
    simp only [filtersActive, Bool.or_eq_false_iff] at hA'
    obtain ⟨⟨h1, h2⟩, h3⟩ := hA'
    simp [keepProduct, dropMin, dropMax, dropRating, h1, h2, h3]

/-- A product that survives an active min-price check has its effective
price, when numeric, at or above the parsed bound. -/
theorem dropMin_false_bound {f : Filters} {p : Product} {m q : ℚ}
    (h : dropMin f p = false) (ht : truthyStr f.minPrice = true)
    (hm : parseFloatJS f.minPrice = some m)
    (hq : toNumberJS (effPrice p) = some q) : m ≤ q := by
  unfold dropMin at h
  rw [ht, Bool.true_and] at h
  unfold jlt at h
  rw [hq, hm] at h
  simpa using le_of_not_lt (of_decide_eq_false h)

/-- A product that survives an active max-price check has its effective
price, when numeric, at or below the parsed bound. -/
theorem dropMax_false_bound {f : Filters} {p : Product} {m q : ℚ}
    (h : dropMax f p = false) (ht : truthyStr f.maxPrice = true)
    (hm : parseFloatJS f.maxPrice = some m)
    (hq : toNumberJS (effPrice p) = some q) : q ≤ m := by
  unfold dropMax at h
  rw [ht, Bool.true_and] at h
  unfold jgt at h
  rw [hq, hm] at h
  simpa using le_of_not_lt (of_decide_eq_false h)

/-- A product that survives an active min-rating check has its effective
rating, when numeric, at or above the parsed bound. -/
theorem dropRating_false_bound {f : Filters} {p : Product} {m q : ℚ}
    (h : dropRating f p = false) (ht : truthyStr f.minRating = true)
    (hm : parseFloatJS f.minRating = some m)
    (hq : toNumberJS (effRating p) = some q) : m ≤ q := by
  unfold dropRating at h
  rw [ht, Bool.true_and] at h
  unfold jlt at h
  rw [hq, hm] at h
  simpa using le_of_not_lt (of_decide_eq_false h)

/-- The history update puts the query first. -/
theorem updateHistory_head (q : String) (h : List String) :
    (updateHistory q h).head? = some q := rfl

/-- The history update preserves duplicate-freedom. -/
theorem updateHistory_nodup (q : String) (h : List String) (hn : h.Nodup) :
    (updateHistory q h).Nodup := by
  unfold updateHistory
  apply List.Nodup.sublist (List.take_sublist _ _)
  refine List.nodup_cons.mpr ⟨?_, List.Nodup.filter _ hn⟩
  intro hmem
  have := (List.mem_filter.mp hmem).2
  simp at this

/-- The history update keeps at most 10 entries. -/
theorem updateHistory_length (q : String) (h : List String) :
    (updateHistory q h).length ≤ 10 := by
  unfold updateHistory
  simp [List.length_take_le]

/-! Claim theorems. -/

/-- C6 (amended): each displayed field is resolved by probing the claimed
paths in the claimed priority order, but the first TRUTHY value wins (a
present value that is `0`, `""`, `null` or `false` is skipped), with the
claimed defaults. -/
theorem C6_field_resolution (p : Product) :
    (getProductData p).name
      = firstTruthy [p.name, p.title, rawField p RawRecord.name,
          rawField p RawRecord.title] (.str "Product Name")
  ∧ (getProductData p).price
      = firstTruthy [p.price, rawField p RawRecord.price,
          rawField p RawRecord.sale_price, rawField p RawRecord.list_price] (.num 0)
  ∧ (getProductData p).rating
      = firstTruthy [p.rating, rawField p RawRecord.average_rating,
          rawField p RawRecord.rating, rawField p RawRecord.review_score] (.num 0) := by
  refine ⟨?_, ?_, ?_⟩ <;> exact jor_eq_firstTruthy4 ..

/-- The product of claim C6's counterexample: its own `price` field is
present and well-typed (the number `0`), and the raw record carries
`sale_price` 30. -/
def pC6 : Product :=
  { emptyProduct with price := .num 0, raw := some { emptyRaw with sale_price := .num 30 } }

/-- C6 counterexample: the claim says the first present, well-typed value
wins, so `pC6`'s price would resolve to its present `price` field `0`; the
code skips the falsy `0` and resolves to `raw.sale_price` 30 instead. -/
theorem C6_counterexample :
    specC6Price pC6 = .num 0 ∧ (getProductData pC6).price = .num 30 := by decide

/-- C2: the client-side filtering step is order-preserving — the displayed
list is a sublist of the response's results in response order — so a response
whose scores are non-increasing yields a displayed list whose scores are
non-increasing. -/
theorem C2_order_preserving (f : Filters) (rs : List Product)
    (h : List.Pairwise (fun a b => scoreGeB a b = true) rs) :
    (clientFilter f rs).Sublist rs
  ∧ List.Pairwise (fun a b => scoreGeB a b = true) (clientFilter f rs) := by
  have hs : (clientFilter f rs).Sublist rs := by
    unfold clientFilter
    split
    · exact List.filter_sublist rs
    · exact List.Sublist.refl rs
  exact ⟨hs, List.Pairwise.sublist hs h⟩

/-- The higher-scored product of the C2 witness. -/
def pHighScore : Product := { emptyProduct with score := .num 9 }

/-- The lower-scored product of the C2 witness. -/
def pLowScore : Product := { emptyProduct with score := .num 5 }

/-- C2 witness: a concrete sorted response through a concrete active
filter. -/
theorem C2_witness :
    (clientFilter { defaultFilters with minRating := "3" } [pHighScore, pLowScore]).Sublist
        [pHighScore, pLowScore]
  ∧ List.Pairwise (fun a b => scoreGeB a b = true)
      (clientFilter { defaultFilters with minRating := "3" } [pHighScore, pLowScore]) :=
  C2_order_preserving { defaultFilters with minRating := "3" } [pHighScore, pLowScore]
    (by decide)

/-- C3: with empty trimmed query text and no image file, `handleSearch`
returns before any request is sent and leaves the whole state (results,
loading, history, ...) unchanged; the part_000 `submit` guard does the
same. -/
theorem C3_empty_query_no_request (s : AppState) (resp : ServerResponse)
    (hq : (jsTrim s.query) = "") (hi : s.imageFile = none) :
    handleSearch s resp = ⟨none, s, none⟩
  ∧ (∀ (m : MiniState) (r : FetchOutcome), (jsTrim m.q) = "" → submit m r = ⟨none, m, none⟩) := by
  constructor
  · have hcond : ((jsTrim s.query) == "" && s.imageFile == none) = true := by
      simp [hq, hi]
    simp [handleSearch, hcond]
  · intro m r hm
    have hcond : ((jsTrim m.q) == "") = true := by simp [hm]
    simp [submit, hcond]

/-- C3 witness: a whitespace-only query with no selected image. -/
theorem C3_witness :
    handleSearch { initialState with query := " " } (.ok (some []))
      = ⟨none, { initialState with query := " " }, none⟩
  ∧ (∀ (m : MiniState) (r : FetchOutcome), (jsTrim m.q) = "" → submit m r = ⟨none, m, none⟩) :=
  C3_empty_query_no_request { initialState with query := " " } (.ok (some []))
    (by decide) rfl

/-- C4 (amended): the request body carries `gender_filter` with the selected
value exactly when the gender filter is men/women/unisex (absent for "all"),
but `min_price`, `max_price` and `min_rating` are NEVER carried in the
request — those filters are applied client-side to the response. -/
theorem C4_payload_fields (q : String) (img : Option JsFile) (r : Bool) (f : Filters) :
    ((buildPayload q img r f).lookup "gender_filter"
        = if f.gender = .all then none else some (.str f.gender.toStr))
  ∧ (buildPayload q img r f).lookup "min_price" = none
  ∧ (buildPayload q img r f).lookup "max_price" = none
  ∧ (buildPayload q img r f).lookup "min_rating" = none := by
  rcases f with ⟨g, mn, mx, mr, sb⟩
  cases g <;> exact ⟨rfl, rfl, rfl, rfl⟩

/-- Filters with all three numeric constraints set, for C4's
counterexample. -/
def fC4 : Filters :=
  { defaultFilters with minPrice := "50", maxPrice := "100", minRating := "4" }

/-- C4 counterexample: with min_price, max_price and min_rating all set, the
request body contains none of them. -/
theorem C4_counterexample :
    truthyStr fC4.minPrice = true ∧ truthyStr fC4.maxPrice = true
  ∧ truthyStr fC4.minRating = true
  ∧ (buildPayload "shoes" none true fC4).lookup "min_price" = none
  ∧ (buildPayload "shoes" none true fC4).lookup "max_price" = none
  ∧ (buildPayload "shoes" none true fC4).lookup "min_rating" = none := by decide

/-- C1 (amended): every product the client-side filter lets through satisfies
each active bound as the code evaluates it — on the effective price/rating
(first truthy of the product field and the raw field) coerced to a number;
products whose effective value coerces to NaN pass the bound vacuously. -/
theorem C1_displayed_satisfy_filters (f : Filters) (rs : List Product) (p : Product)
    (hp : p ∈ clientFilter f rs) :
    (∀ m q : ℚ, truthyStr f.minPrice = true → parseFloatJS f.minPrice = some m →
        toNumberJS (effPrice p) = some q → m ≤ q)
  ∧ (∀ m q : ℚ, truthyStr f.maxPrice = true → parseFloatJS f.maxPrice = some m →
        toNumberJS (effPrice p) = some q → q ≤ m)
  ∧ (∀ m q : ℚ, truthyStr f.minRating = true → parseFloatJS f.minRating = some m →
        toNumberJS (effRating p) = some q → m ≤ q) := by
  have hk := keep_of_mem_clientFilter hp
  simp only [keepProduct, Bool.and_eq_true, Bool.not_eq_true'] at hk
  obtain ⟨⟨h1, h2⟩, h3⟩ := hk
  exact ⟨fun m q ht hm hq => dropMin_false_bound h1 ht hm hq,
         fun m q ht hm hq => dropMax_false_bound h2 ht hm hq,
         fun m q ht hm hq => dropRating_false_bound h3 ht hm hq⟩

/-- Min-price filter set to 50, shared by the C1 witness and
counterexample. -/
def fMin50 : Filters := { defaultFilters with minPrice := "50" }

/-- A product priced 60, for the C1 witness. -/
def pC1w : Product := { emptyProduct with price := .num 60 }

/-- C1 witness: a concrete displayed product respects a concrete min-price
bound. -/
theorem C1_witness : (50 : ℚ) ≤ 60 :=
  (C1_displayed_satisfy_filters fMin50 [pC1w] pC1w (by decide)).1 50 60
    (by decide) (by decide) (by decide)

/-- The product of claim C1's counterexample: its `price` field is present
and equal to `0`, and its raw record has no price. -/
def pC1ce : Product := { emptyProduct with price := .num 0 }

/-- C1 counterexample: with min_price 50, a product whose present price is 0
is nevertheless displayed — `0 || undefined` is `undefined` and the NaN
comparison keeps it — although it violates the claim's predicate `price at
least min_price` evaluated on its present price. -/
theorem C1_counterexample :
    pC1ce ∈ clientFilter fMin50 [pC1ce] ∧ specFilterOK fMin50 pC1ce = false := by decide

/-- C5: on every ok response, for every filter setting, the filtering and
result-assignment step completes normally — no alert is raised, `loading`
ends `false`, and the results are set to the (possibly empty) filtered
list. -/
theorem C5_filtering_total (s : AppState) (results? : Option (List Product))
    (hgo : ((jsTrim s.query) == "" && s.imageFile == none) = false) :
    (handleSearch s (.ok results?)).alerted = none
  ∧ (handleSearch s (.ok results?)).state.results = clientFilter s.filters (results?.getD [])
  ∧ (handleSearch s (.ok results?)).state.loading = false := by
  simp [handleSearch, hgo]

/-- State for the C5 witness: query set, min-price filter at 50. -/
def sC5 : AppState :=
  { initialState with query := "shoes", filters := fMin50 }

/-- A product priced 20, below the C5 witness's min-price bound. -/
def pCheap : Product := { emptyProduct with price := .num 20 }

/-- C5 witness: a search whose only candidate is priced below the min-price
bound completes with no alert and an empty results list. -/
theorem C5_witness :
    ((handleSearch sC5 (.ok (some [pCheap]))).alerted = none
  ∧ (handleSearch sC5 (.ok (some [pCheap]))).state.results
      = clientFilter sC5.filters ((some [pCheap]).getD [])
  ∧ (handleSearch sC5 (.ok (some [pCheap]))).state.loading = false)
  ∧ clientFilter sC5.filters [pCheap] = [] :=
  ⟨C5_filtering_total sC5 (some [pCheap]) (by decide), by decide⟩

/-- C7 (amended): for a product with a first image entry, part_000's display
image is the first TRUTHY variant in the order hi_res, large, thumb (the
whole chain, hence `thumb`, when none is truthy — and then the image block is
not rendered); without a first entry `getImageUrl` is `null`; App.jsx probes
only `hi_res` of the first entry before falling back to `product.image`,
`raw.image`, `raw.main_image` and the placeholder. -/
theorem C7_image_selection (p : Product) (e : ImageEntry)
    (he : imagesFirst p = some e) :
    getImageUrl p = firstTruthy [e.hi_res, e.large, e.thumb] e.thumb
  ∧ (truthy (getImageUrl p) = false → cardShowsImage p = false)
  ∧ (∀ q : Product, imagesFirst q = none → getImageUrl q = .null)
  ∧ getProductImage p
      = jor e.hi_res (jor p.image (jor (rawField p RawRecord.image)
          (jor (rawField p RawRecord.main_image) (.str "/placeholder-image.jpg")))) := by
  refine ⟨?_, ?_, ?_, ?_⟩
  · unfold getImageUrl
    rw [he]
    exact jor_eq_firstTruthy3 e.hi_res e.large e.thumb
  · intro h
    unfold cardShowsImage
    exact h
  · intro q hq
    unfold getImageUrl
    rw [hq]
  · have hh : hiResFirst p = e.hi_res := by unfold hiResFirst; rw [he]
    unfold getProductImage
    rw [hh]

/-- Image entry for the C7 witness: no hi_res, a large and a thumb URL. -/
def eC7w : ImageEntry := { hi_res := .undefined, large := .str "L", thumb := .str "T" }

/-- Product for the C7 witness. -/
def pC7w : Product :=
  { emptyProduct with raw := some { emptyRaw with images := some [eC7w] } }

/-- C7 witness: the concrete conclusions at `pC7w`. -/
theorem C7_witness :
    getImageUrl pC7w = firstTruthy [eC7w.hi_res, eC7w.large, eC7w.thumb] eC7w.thumb
  ∧ (truthy (getImageUrl pC7w) = false → cardShowsImage pC7w = false)
  ∧ (∀ q : Product, imagesFirst q = none → getImageUrl q = .null)
  ∧ getProductImage pC7w
      = jor eC7w.hi_res (jor pC7w.image (jor (rawField pC7w RawRecord.image)
          (jor (rawField pC7w RawRecord.main_image) (.str "/placeholder-image.jpg")))) :=
  C7_image_selection pC7w eC7w (by decide)

/-- Image entry for the C7 counterexample: hi_res present but empty, large a
real URL. -/
def eC7 : ImageEntry := { hi_res := .str "", large := .str "http:url-large", thumb := .undefined }

/-- Product for the C7 counterexample. -/
def pC7 : Product :=
  { emptyProduct with raw := some { emptyRaw with images := some [eC7] } }

/-- C7 counterexample: the first PRESENT variant is the empty-string hi_res,
but part_000 skips it (falsy) and displays `large`, and App.jsx falls through
to the placeholder instead of any list variant. -/
theorem C7_counterexample :
    specDisplayVariant pC7 = some (.str "")
  ∧ getImageUrl pC7 = .str "http:url-large"
  ∧ getProductImage pC7 = .str "/placeholder-image.jpg" := by decide

/-- C8: after a completed search with non-empty trimmed query and
duplicate-free prior history, the new history starts with the query, is
duplicate-free, has at most 10 entries, and is mirrored to the stored
`searchHistory` key; clearing empties the list and removes the key. -/
theorem C8_history_invariant (s : AppState) (results? : Option (List Product))
    (hnd : s.searchHistory.Nodup) (hq : (jsTrim s.query) ≠ "") :
    ((handleSearch s (.ok results?)).state.searchHistory.head? = some s.query
  ∧ (handleSearch s (.ok results?)).state.searchHistory.Nodup
  ∧ (handleSearch s (.ok results?)).state.searchHistory.length ≤ 10
  ∧ (handleSearch s (.ok results?)).state.localHistory
      = some (handleSearch s (.ok results?)).state.searchHistory)
  ∧ ((clearHistory s).searchHistory = [] ∧ (clearHistory s).localHistory = none) := by
  have hq' : ((jsTrim s.query) == "") = false := by simp [hq]
  have hgo : ((jsTrim s.query) == "" && s.imageFile == none) = false := by
    simp [hq']
  have hne : ((jsTrim s.query) != "") = true := by simp [hq]
  refine ⟨?_, rfl, rfl⟩
  simp only [handleSearch, hgo, Bool.false_eq_true, if_false, hne, if_pos]
  exact ⟨updateHistory_head s.query s.searchHistory,
         updateHistory_nodup s.query s.searchHistory hnd,
         updateHistory_length s.query s.searchHistory,
         trivial⟩

/-- State for the C8 witness: a query that is already in the (duplicate-free)
history, in a non-head position. -/
def sC8 : AppState :=
  { initialState with query := "red dress", searchHistory := ["a", "red dress", "b"] }

/-- C8 witness: concrete history update and clear. -/
theorem C8_witness :
    ((handleSearch sC8 (.ok (some []))).state.searchHistory.head? = some sC8.query
  ∧ (handleSearch sC8 (.ok (some []))).state.searchHistory.Nodup
  ∧ (handleSearch sC8 (.ok (some []))).state.searchHistory.length ≤ 10
  ∧ (handleSearch sC8 (.ok (some []))).state.localHistory
      = some (handleSearch sC8 (.ok (some []))).state.searchHistory)
  ∧ ((clearHistory sC8).searchHistory = [] ∧ (clearHistory sC8).localHistory = none) :=
  C8_history_invariant sC8 (some []) (by decide) (by decide)

/-- C9: a selected file becomes the query image only when its MIME type
starts with `image/` and its size is at most 5*1024*1024 bytes; a file
failing either check leaves the whole state (image file and preview
included) unchanged and only raises an alert. -/
theorem C9_image_validation (s : AppState) (f : JsFile) :
    (jsStartsWith f.type "image/" = false ∨ 5 * 1024 * 1024 < f.size →
        (handleImageChange (some f) s).1 = s
      ∧ ((handleImageChange (some f) s).2).isSome = true)
  ∧ ((handleImageChange (some f) s).1.imageFile = s.imageFile
      ∨ ((handleImageChange (some f) s).1.imageFile = some f ∧ validImageFile f = true))
  ∧ (validImageFile f = true →
        (handleImageChange (some f) s).1.imageFile = some f
      ∧ (handleImageChange (some f) s).2 = none) := by
  by_cases h1 : jsStartsWith f.type "image/" = true
  · by_cases h2 : 5 * 1024 * 1024 < f.size
    · refine ⟨fun _ => ?_, Or.inl ?_, fun hv => ?_⟩
      · simp [handleImageChange, h1, h2]
      · simp [handleImageChange, h1, h2]
      · exfalso
        simp only [validImageFile, Bool.and_eq_true, decide_eq_true_eq] at hv
        exact absurd hv.2 (not_le.mpr h2)
    · have h2' : f.size ≤ 5 * 1024 * 1024 := le_of_not_lt h2
      refine ⟨fun hbad => ?_, Or.inr ⟨?_, ?_⟩, fun _ => ⟨?_, ?_⟩⟩
      · rcases hbad with hb | hb
        · rw [h1] at hb; exact absurd hb (by simp)
        · exact absurd hb h2
      · simp [handleImageChange, h1, h2]
      · simp [validImageFile, h1, h2']
      · simp [handleImageChange, h1, h2]
      · simp [handleImageChange, h1, h2]
  · have h1' : jsStartsWith f.type "image/" = false := by simpa using h1
    refine ⟨fun _ => ?_, Or.inl ?_, fun hv => ?_⟩
    · simp [handleImageChange, h1']
    · simp [handleImageChange, h1']
    · exfalso
      simp only [validImageFile, Bool.and_eq_true] at hv
      rw [h1'] at hv
      exact absurd hv.1 (by simp)

/-- A non-image file, for the C9 witness. -/
def badFile : JsFile := { type := "application/pdf", size := 100, base64 := "AAAA" }

/-- C9 witness: a PDF selection leaves the state unchanged and alerts. -/
theorem C9_witness :
    (handleImageChange (some badFile) initialState).1 = initialState
  ∧ ((handleImageChange (some badFile) initialState).2).isSome = true :=
  (C9_image_validation initialState badFile).1 (Or.inl (by decide))

/-- C10 (amended): a product whose EFFECTIVE price
(`product.price || product.raw?.price`) is `undefined` is dropped by neither
price check (NaN comparisons are false) and gets no part_000 price badge;
but — per the counterexample — an effective price equal to `0` is compared
as a number and IS dropped by a positive min_price. -/
theorem C10_undefined_price_passes (f : Filters) (p : Product)
    (h : effPrice p = JVal.undefined) :
    dropMin f p = false ∧ dropMax f p = false ∧ showsPriceBadge p = false := by
  have hn : toNumberJS (effPrice p) = none := by rw [h]; rfl
  refine ⟨?_, ?_, ?_⟩
  · unfold dropMin jlt
    rw [hn]
    cases parseFloatJS f.minPrice <;> simp
  · unfold dropMax jgt
    rw [hn]
    cases parseFloatJS f.maxPrice <;> simp
  · unfold showsPriceBadge
    rw [h]
    rfl

/-- The product of claim C10's counterexample: price `0` on the product and
on the raw record. -/
def pC10 : Product :=
  { emptyProduct with price := .num 0, raw := some { emptyRaw with price := .num 0 } }

/-- C10 counterexample: a product whose price is 0 — a falsy price — IS
dropped by the min_price filter (the comparison `0 < 50` is true, not
false as the claim asserts). -/
theorem C10_counterexample :
    pC10.price = .num 0 ∧ effPrice pC10 = .num 0
  ∧ clientFilter fMin50 [pC10] = [] := by decide

/-- A product with price 0 and no raw record, whose effective price is
`undefined`, for the C10 witness. -/
def pC10w : Product := { emptyProduct with price := .num 0 }

/-- C10 witness: the amended statement at a concrete product. -/
theorem C10_witness :
    dropMin fMin50 pC10w = false ∧ dropMax fMin50 pC10w = false
  ∧ showsPriceBadge pC10w = false :=
  C10_undefined_price_passes fMin50 pC10w (by decide)

end VectorVogue
